import Mathlib

/-!
Verification of the plugin host of `deno_lint` (dlint plugin prototype).

The embedding below is a shallow model of the JavaScript sources:

* `src/examples/dlint/runtime/plugin_host.js` — module state `loadedPlugins`
  and `context`, the async loader `hostInit`, and the request handler
  `hostRequest`;
* `src/examples/dlint/plugins/plugin1.js` — the repository's example plugin
  factory;
* `src/unnamed/part_000` — an earlier variant of `plugin_host.js` whose
  second `hostRequest` copy reads `ast.span.start` / `ast.span.end`;
* `src/unnamed/part_001` — the `plugin_server.js` variant.

Side effects are made explicit: the handler is modelled as the ordered list
of observable plugin-interaction events it performs (ops called, callbacks
invoked).  JavaScript exceptions are modelled with `Except String`, absent
object fields with `Option`.
-/

namespace DenoLint

/-- A byte-offset span as consumed by `op_add_diagnostic` and carried on the
root AST object (`ast.span.start`, `ast.span.end` in `part_000`). -/
structure Span where
  start : Nat
  «end» : Nat
  deriving DecidableEq, Repr

/-- A line/column position, the shape `plugin1.js` builds for
`location.start` and `location.end`. -/
structure Position where
  line : Nat
  column : Nat
  deriving DecidableEq, Repr

/-- The `location` object built by `plugin1.js`. -/
structure Location where
  start : Position
  «end» : Position
  deriving DecidableEq, Repr

/-- The argument `plugin1.js` passes to `context.addDiagnostics`:
`{filename, code, message, location}`.  `filename` is `Option` because it is
read from `context.filename`, which may be absent (`undefined`). -/
structure DiagnosticRequest where
  filename : Option String
  code : String
  message : String
  location : Location
  deriving DecidableEq, Repr

/-- An AST node: a `kind` tag, an optional `span` field, and children.  The
host treats the tree as opaque: the only field any of the sources read is
the root's `span` (`if (ast.span)` in `hostRequest`), so the JavaScript
truthiness test on the object-valued `span` field is `Option.isSome`. -/
inductive AstNode : Type where
  | node : String → Option Span → List AstNode → AstNode
  deriving Repr

/-- The `kind` tag of a node. -/
def AstNode.kind : AstNode → String
  | .node k _ _ => k

/-- The `span` field of a node (`none` models an absent field). -/
def AstNode.span : AstNode → Option Span
  | .node _ s _ => s

/-- The children of a node. -/
def AstNode.children : AstNode → List AstNode
  | .node _ _ c => c

/-- A diagnostic as collected by the `op_add_diagnostic` op, whose call shape
in `plugin_host.js` is `addDiagnostic(plugin.name, message, code, start, end)`
with `code` passed as `null`. -/
structure Diagnostic where
  pluginName : String
  message : String
  code : Option String
  start : Nat
  «end» : Nat
  deriving DecidableEq, Repr

/-- The shared `context` object.  In `plugin_host.js` it is the literal `{}`
(line 9) and the host never writes to it.  We model exactly the two members
the repository's code ever accesses: `context.filename` (read by
`plugin1.js`; absent is `none`) and whether a callable `context.addDiagnostics`
member is present (called by `plugin1.js`). -/
structure SharedContext where
  filename : Option String
  hasAddDiagnostics : Bool
  deriving DecidableEq, Repr

/-- A visitor callback, e.g. `visitor.Program` in `plugin1.js`: a JavaScript
function of the node that may throw (`Except.error`) and may hand diagnostic
requests to `context.addDiagnostics` (the returned list). -/
def VisitorCallback : Type := AstNode → Except String (List DiagnosticRequest)

/-- An `onEnd` callback: reads the shared context when invoked and may throw
or emit diagnostic requests. -/
def OnEndCallback : Type := SharedContext → Except String (List DiagnosticRequest)

/-- A plugin instance as returned by a plugin factory: the object shape of
`plugin1.js` (`name`, optional `visitor` mapping node kinds to callbacks,
optional `onEnd`).  A missing `visitor` is the empty mapping. -/
structure Plugin where
  name : String
  visitor : List (String × VisitorCallback)
  onEnd : Option OnEndCallback

/-- A plugin factory: `pluginMod.default({ context })`.  The `Except.error`
case covers both a failing dynamic `import` and a throwing factory body.
No factory in the repository writes to the context, so the model passes the
context read-only. -/
def Factory : Type := SharedContext → Except String Plugin

/-- The module-level mutable state of `plugin_host.js`: the `loadedPlugins`
array (line 8) and the `context` object (line 9). -/
structure HostState where
  loadedPlugins : List Plugin
  context : SharedContext

/-- The state at module evaluation: `loadedPlugins = []` and `context = {}`
(no `filename`, no `addDiagnostics`). -/
def initialContext : SharedContext := { filename := none, hasAddDiagnostics := false }

/-- The host state right after the module is evaluated. -/
def initialState : HostState := { loadedPlugins := [], context := initialContext }

/-- `hostInit({ plugins })` (`plugin_host.js` lines 11–20): for each plugin
path, import the module, call its default factory with `{ context }`, and
push the instance onto `loadedPlugins`.  There is no `try`/`catch`: a
throwing factory rejects the whole `hostInit` call at that point; the pushes
already performed persist and the remaining paths are never reached. -/
def hostInit (st : HostState) (factories : List Factory) : HostState × Except String Unit :=
  match factories with
  | [] => (st, Except.ok ())
  | f :: rest =>
    match f st.context with
    | Except.error e => (st, Except.error e)
    | Except.ok p =>
      hostInit { st with loadedPlugins := st.loadedPlugins ++ [p] } rest

/-- The plugin instances a `hostInit` call appends: the successfully
instantiated prefix of its factory list, stopping at the first throw. -/
def newlyLoaded (ctx : SharedContext) : List Factory → List Plugin
  | [] => []
  | f :: rest =>
    match f ctx with
    | Except.error _ => []
    | Except.ok p => p :: newlyLoaded ctx rest

/-- An observable plugin-interaction action of the host during one request.
The body of `hostRequest` (`plugin_host.js` lines 22–37) only ever calls the
`op_add_diagnostic` op; `invokeVisitor` and `invokeOnEnd` are in the event
alphabet so that claims about visitor and `onEnd` invocation can be stated
against the trace. -/
inductive HostEvent : Type where
  | invokeVisitor : String → String → HostEvent
  | invokeOnEnd : String → HostEvent
  | addDiagnostic : Diagnostic → HostEvent
  deriving DecidableEq, Repr

/-- The fixed diagnostic `hostRequest` emits for a plugin:
`addDiagnostic(plugin.name, "Example Plugin diagnostics", null, 100, 200)`
(`plugin_host.js` line 34). -/
def fixedDiagnostic (pluginName : String) : Diagnostic :=
  { pluginName := pluginName
    message := "Example Plugin diagnostics"
    code := none
    start := 100
    «end» := 200 }

/-- The `for (const plugin of loadedPlugins)` loop of `hostRequest`
(`plugin_host.js` lines 29–36): per plugin, if `ast.span` is truthy, call
`addDiagnostic` with the fixed message and span; nothing else touches a
plugin — no visitor is constructed (the `visitor.visitProgram(ast)` lines
are commented out) and no callback is invoked. -/
def requestLoop : List Plugin → AstNode → List HostEvent
  | [], _ => []
  | p :: rest, ast =>
    (if ast.span.isSome then [HostEvent.addDiagnostic (fixedDiagnostic p.name)] else [])
      ++ requestLoop rest ast

/-- `hostRequest()` (`plugin_host.js` lines 22–37), as the ordered trace of
observable actions it performs.  The function reads the module state and
mutates none of it; its local `filename` is the constant `"..."` and is only
logged. -/
def hostRequest (st : HostState) (ast : AstNode) : List HostEvent :=
  requestLoop st.loadedPlugins ast

/-- The diagnostics drained after a request: the arguments of the
`op_add_diagnostic` calls, in call order. -/
def diagnosticsOf (events : List HostEvent) : List Diagnostic :=
  events.filterMap fun e =>
    match e with
    | HostEvent.addDiagnostic d => some d
    | _ => none

/-- The diagnostic sequence one `hostRequest` call produces. -/
def hostRequestDiags (st : HostState) (ast : AstNode) : List Diagnostic :=
  diagnosticsOf (hostRequest st ast)

/-- The diagnostic emitted by the second `hostRequest` copy in
`src/unnamed/part_000` (line 60): `addDiagnostic(plugin.name,
"Example Plugin diagnostics", null, ast.span.start, ast.span.end)`. -/
def variantDiagnostic (pluginName : String) (sp : Span) : Diagnostic :=
  { pluginName := pluginName
    message := "Example Plugin diagnostics"
    code := none
    start := sp.start
    «end» := sp.«end» }

/-- The per-plugin body of the second `hostRequest` copy in
`src/unnamed/part_000` (lines 54–63): the span of the emitted diagnostic is
read from `ast.span.start` and `ast.span.end` instead of the literals. -/
def requestLoopVariant : List Plugin → AstNode → List HostEvent
  | [], _ => []
  | p :: rest, ast =>
    (match ast.span with
     | some sp => [HostEvent.addDiagnostic (variantDiagnostic p.name sp)]
     | none => []) ++ requestLoopVariant rest ast

/-- The `hostRequest` of the `part_000` variant, as a trace. -/
def hostRequestVariant (st : HostState) (ast : AstNode) : List HostEvent :=
  requestLoopVariant st.loadedPlugins ast

/-- Diagnostics of the `part_000` variant request. -/
def hostRequestVariantDiags (st : HostState) (ast : AstNode) : List Diagnostic :=
  diagnosticsOf (hostRequestVariant st ast)

/-- The `onEnd` of `plugin1.js` (lines 6–22): builds the diagnostic request
from `context.filename` and hands it to `context.addDiagnostics`; when the
context has no `addDiagnostics` member — as with the host's `{}` context —
the call throws a `TypeError`. -/
def plugin1OnEnd : OnEndCallback := fun ctx =>
  if ctx.hasAddDiagnostics then
    Except.ok
      [{ filename := ctx.filename
         code := "example_plugin"
         message := "Example Plugin diagnostics"
         location :=
           { start := { line := 1, column := 1 }
             «end» := { line := 1, column := 1 } } }]
  else
    Except.error "TypeError: context.addDiagnostics is not a function"

/-- The `visitor.Program` callback of `plugin1.js` (lines 24–26): it only
logs, emitting nothing and not throwing. -/
def plugin1Program : VisitorCallback := fun _ => Except.ok []

/-- The plugin instance `plugin1.js` returns. -/
def plugin1Instance : Plugin :=
  { name := "example_plugin1"
    visitor := [("Program", plugin1Program)]
    onEnd := some plugin1OnEnd }

/-- The default export of `plugin1.js` (lines 1–29): a factory that never
throws and returns `plugin1Instance`. -/
def plugin1Factory : Factory := fun _ => Except.ok plugin1Instance

/-! Concrete fixtures used to evaluate the model on closed inputs. -/

/-- A `Program` root node with span `[0, 50]`, as in the spec's scenario
`Program{span:[0,50], ...}`. -/
def astProgram : AstNode := AstNode.node "Program" (some { start := 0, «end» := 50 }) []

/-- A root node whose `span` field is absent. -/
def astNoSpan : AstNode := AstNode.node "Program" none []

/-- A plugin named "A" registering a visitor callback for kind `Program`. -/
def pluginA : Plugin :=
  { name := "A", visitor := [("Program", fun _ => Except.ok [])], onEnd := none }

/-- A plugin named "B" registering a visitor callback for kind `Program`. -/
def pluginB : Plugin :=
  { name := "B", visitor := [("Program", fun _ => Except.ok [])], onEnd := none }

/-- Host state with plugins "A" and "B" loaded, in that order. -/
def stAB : HostState := { loadedPlugins := [pluginA, pluginB], context := initialContext }

/-- Host state with only plugin "A" loaded. -/
def stA : HostState := { loadedPlugins := [pluginA], context := initialContext }

/-- A plugin whose `Program` visitor callback throws when invoked. -/
def pluginThrower : Plugin :=
  { name := "thrower"
    visitor := [("Program", fun _ => Except.error "boom from visitor")]
    onEnd := none }

/-- Host state with only the throwing-callback plugin loaded. -/
def stThrower : HostState := { loadedPlugins := [pluginThrower], context := initialContext }

/-- A factory that throws during instantiation. -/
def factoryBoom : Factory := fun _ => Except.error "boom"

/-- A well-formed plugin used after a failing factory. -/
def pluginGood : Plugin := { name := "good", visitor := [], onEnd := none }

/-- A factory that succeeds, returning `pluginGood`. -/
def factoryGood : Factory := fun _ => Except.ok pluginGood

/-- A descriptor whose `name` is the empty string. -/
def unnamedPlugin : Plugin := { name := "", visitor := [], onEnd := none }

/-- A factory returning the empty-named descriptor. -/
def factoryUnnamed : Factory := fun _ => Except.ok unnamedPlugin

/-- Whether a diagnostic's range lies inside (or equals) a span. -/
def subRange (d : Diagnostic) (s : Span) : Prop :=
  s.start ≤ d.start ∧ d.«end» ≤ s.«end»

instance (d : Diagnostic) (s : Span) : Decidable (subRange d s) := by
  unfold subRange; infer_instance

/-! Helper lemmas about the request loop and the loader. -/

lemma requestLoop_eq (plugins : List Plugin) (ast : AstNode) :
    requestLoop plugins ast =
      if ast.span.isSome then
        plugins.map (fun p => HostEvent.addDiagnostic (fixedDiagnostic p.name))
      else [] := by
  induction plugins with
  | nil => simp [requestLoop]
  | cons p rest ih =>
    by_cases h : ast.span.isSome <;> simp [requestLoop, ih, h]

lemma requestLoop_append (a b : List Plugin) (ast : AstNode) :
    requestLoop (a ++ b) ast = requestLoop a ast ++ requestLoop b ast := by
  induction a with
  | nil => rfl
  | cons p rest ih => simp [requestLoop, ih]

lemma requestLoop_only_diagnostics (plugins : List Plugin) (ast : AstNode) :
    ∀ e ∈ requestLoop plugins ast, ∃ d, e = HostEvent.addDiagnostic d := by
  intro e he
  rw [requestLoop_eq] at he
  by_cases h : ast.span.isSome
  · rw [if_pos h] at he
    obtain ⟨p, _, rfl⟩ := List.mem_map.mp he
    exact ⟨fixedDiagnostic p.name, rfl⟩
  · rw [if_neg h] at he
    exact absurd he (List.not_mem_nil e)

lemma diagnosticsOf_map (f : Plugin → Diagnostic) (l : List Plugin) :
    diagnosticsOf (l.map fun p => HostEvent.addDiagnostic (f p)) = l.map f := by
  induction l with
  | nil => rfl
  | cons p rest ih => simpa [diagnosticsOf, List.filterMap_cons] using ih

lemma hostRequestDiags_eq (st : HostState) (ast : AstNode) :
    hostRequestDiags st ast =
      if ast.span.isSome then st.loadedPlugins.map (fun p => fixedDiagnostic p.name)
      else [] := by
  unfold hostRequestDiags hostRequest
  rw [requestLoop_eq]
  by_cases h : ast.span.isSome
  · rw [if_pos h, if_pos h]
    exact diagnosticsOf_map _ _
  · rw [if_neg h, if_neg h]
    rfl

lemma requestLoopVariant_eq (plugins : List Plugin) (ast : AstNode) (sp : Span)
    (h : ast.span = some sp) :
    requestLoopVariant plugins ast =
      plugins.map (fun p => HostEvent.addDiagnostic (variantDiagnostic p.name sp)) := by
  induction plugins with
  | nil => rfl
  | cons p rest ih => simp [requestLoopVariant, h, ih]

lemma requestLoop_names (a b : List Plugin) (ast : AstNode)
    (h : a.map Plugin.name = b.map Plugin.name) :
    requestLoop a ast = requestLoop b ast := by
  induction a generalizing b with
  | nil =>
    cases b with
    | nil => rfl
    | cons q bs => simp at h
  | cons p as ih =>
    cases b with
    | nil => simp at h
    | cons q bs =>
      obtain ⟨h1, h2⟩ : p.name = q.name ∧ as.map Plugin.name = bs.map Plugin.name := by
        simpa using h
      simp [requestLoop, h1, ih bs h2]

lemma hostInit_fst (fs : List Factory) : ∀ st : HostState,
    (hostInit st fs).1 =
      { loadedPlugins := st.loadedPlugins ++ newlyLoaded st.context fs
        context := st.context } := by
  induction fs with
  | nil => intro st; simp [hostInit, newlyLoaded]
  | cons f rest ih =>
    intro st
    unfold hostInit newlyLoaded
    cases hf : f st.context with
    | error e => simp
    | ok p => simp [ih]

/-! Claim theorems. -/

/-- C1, counterexample: plugin "A" registers a visitor callback for kind
`Program` and a `Program` root with a span is analyzed (two plugins, "A"
registered before "B"), yet the request trace contains no invocation of
"A"'s `Program` callback — `hostRequest` does not look up node kinds in the
registered visitors, so the claimed callback dispatch does not happen. -/
theorem c1_counterexample :
    pluginA.visitor.map Prod.fst = ["Program"] ∧
    astProgram.kind = "Program" ∧
    astProgram.span.isSome = true ∧
    HostEvent.invokeVisitor "A" "Program" ∉ hostRequest stAB astProgram :=
  ⟨rfl, rfl, rfl, by decide⟩

/-- C1, amended: `hostRequest` invokes no visitor callback at all; instead,
when the root has a span it emits exactly one fixed diagnostic per loaded
plugin, attributed to the plugins' names in registration order — so the
diagnostic attributed to an earlier-registered plugin A still precedes the
one attributed to a later-registered plugin B. -/
theorem c1_order_without_dispatch (st : HostState) (ast : AstNode)
    (h : ast.span.isSome = true) :
    (hostRequestDiags st ast).map Diagnostic.pluginName = st.loadedPlugins.map Plugin.name ∧
    ∀ e ∈ hostRequest st ast, ∀ pn k, e ≠ HostEvent.invokeVisitor pn k := by
  constructor
  · rw [hostRequestDiags_eq, if_pos h, List.map_map]
    rfl
  · intro e he pn k
    obtain ⟨d, rfl⟩ := requestLoop_only_diagnostics st.loadedPlugins ast e he
    intro hcontra
    exact HostEvent.noConfusion hcontra

/-- C1, witness for `c1_order_without_dispatch` at plugins "A", "B" and the
`Program` root. -/
theorem c1_witness :
    astProgram.span.isSome = true ∧
    ((hostRequestDiags stAB astProgram).map Diagnostic.pluginName =
        stAB.loadedPlugins.map Plugin.name ∧
      ∀ e ∈ hostRequest stAB astProgram, ∀ pn k, e ≠ HostEvent.invokeVisitor pn k) :=
  ⟨rfl, c1_order_without_dispatch stAB astProgram rfl⟩

/-- C2: the repository's own plugin `plugin1.js` defines an `onEnd`
callback, and after a real `hostInit` of that plugin a request on an AST
with a span performs no `onEnd` invocation at all — the trace holds only the
fixed `addDiagnostic` call, contradicting "invoked exactly once after the
traversal completes". -/
theorem c2_onEnd_never_invoked :
    plugin1Instance.onEnd.isSome = true ∧
    hostRequest (hostInit initialState [plugin1Factory]).1 astProgram =
      [HostEvent.addDiagnostic (fixedDiagnostic "example_plugin1")] ∧
    HostEvent.invokeOnEnd "example_plugin1" ∉
      hostRequest (hostInit initialState [plugin1Factory]).1 astProgram :=
  ⟨rfl, rfl, by decide⟩

/-- C3: with a plugin whose `Program` visitor callback throws when invoked
loaded, a request over a `Program` root completes with exactly the fixed
diagnostic for that plugin: the callback is never invoked (so nothing can
throw during the walk), and no error record of any kind — the host has no
PluginRuntimeError notion — appears in the trace or the diagnostics. -/
theorem c3_no_callback_invocation :
    hostRequest stThrower astProgram =
      [HostEvent.addDiagnostic (fixedDiagnostic "thrower")] ∧
    hostRequestDiags stThrower astProgram = [fixedDiagnostic "thrower"] :=
  ⟨rfl, rfl⟩

/-- C4, counterexample: with a throwing factory supplied before a valid one,
`hostInit` ends with the factory's exception and the subsequent valid plugin
is never registered — there is no per-plugin error list and initialization
does abort. -/
theorem c4_counterexample :
    (hostInit initialState [factoryBoom, factoryGood]).1.loadedPlugins = [] ∧
    (hostInit initialState [factoryBoom, factoryGood]).2 = Except.error "boom" :=
  ⟨rfl, rfl⟩

/-- C4, amended: `hostInit` performs no validation and no per-plugin error
recovery: the plugins instantiated before a throwing factory are kept, the
throwing factory makes the whole call fail with that exception and the
remaining factories never run, and a descriptor is registered without any
check of its name — an empty-named descriptor is registered like a valid
one. -/
theorem c4_abort_semantics :
    (∀ (st : HostState) (fs : List Factory),
      (hostInit st fs).1.loadedPlugins = st.loadedPlugins ++ newlyLoaded st.context fs) ∧
    (∀ (st : HostState) (f : Factory) (e : String) (rest : List Factory),
      f st.context = Except.error e → hostInit st (f :: rest) = (st, Except.error e)) ∧
    (∀ st : HostState,
      hostInit st [factoryUnnamed] =
        ({ st with loadedPlugins := st.loadedPlugins ++ [unnamedPlugin] }, Except.ok ())) := by
  refine ⟨fun st fs => ?_, fun st f e rest hf => ?_, fun st => rfl⟩
  · rw [hostInit_fst fs st]
  · unfold hostInit
    rw [hf]

/-- C4, witness for `c4_abort_semantics`: the throwing factory is applied at
the initial state. -/
theorem c4_witness :
    factoryBoom initialState.context = Except.error "boom" ∧
    hostInit initialState (factoryBoom :: [factoryGood]) = (initialState, Except.error "boom") :=
  ⟨rfl, c4_abort_semantics.2.1 initialState factoryBoom "boom" [factoryGood] rfl⟩

/-- C5: the host's shared context is the empty object and stays that way —
it carries no `filename` and no callable `addDiagnostics` when handed to a
factory, `hostInit` leaves it unchanged, and `plugin1.js`'s own `onEnd`
would throw a TypeError on that context because `context.addDiagnostics`
does not exist.  (`hostRequest` takes no filename argument at all: its local
`filename` is the constant string "...".) -/
theorem c5_context_never_populated :
    initialContext.filename = none ∧
    initialContext.hasAddDiagnostics = false ∧
    (hostInit initialState [plugin1Factory]).1.context = initialContext ∧
    plugin1OnEnd initialContext =
      Except.error "TypeError: context.addDiagnostics is not a function" :=
  ⟨rfl, rfl, rfl, rfl⟩

/-- C6, counterexample: with plugin "A" loaded and a `Program` root whose
span is `[0, 50]`, the request produces the fixed diagnostic with range
`[100, 200]`, which is not a sub-range of the producing (root) node's span. -/
theorem c6_counterexample :
    hostRequestDiags stA astProgram = [fixedDiagnostic "A"] ∧
    astProgram.span = some { start := 0, «end» := 50 } ∧
    ¬ subRange (fixedDiagnostic "A") { start := 0, «end» := 50 } :=
  ⟨rfl, rfl, by decide⟩

/-- C6, amended: in the current `plugin_host.js` every returned diagnostic
carries the fixed range `[100, 200]` regardless of the node that produced
it — so the sub-range property holds only when the root span happens to
contain `[100, 200]`; in the `part_000` variant, which reads `ast.span`,
every diagnostic's range equals the producing root node's span, where the
claim holds with equality. -/
theorem c6_span_provenance :
    (∀ (st : HostState) (ast : AstNode) (d : Diagnostic),
      d ∈ hostRequestDiags st ast → d.start = 100 ∧ d.«end» = 200) ∧
    (∀ (st : HostState) (ast : AstNode) (sp : Span) (d : Diagnostic),
      ast.span = some sp → d ∈ hostRequestVariantDiags st ast →
        d.start = sp.start ∧ d.«end» = sp.«end») := by
  constructor
  · intro st ast d hd
    rw [hostRequestDiags_eq] at hd
    by_cases h : ast.span.isSome
    · rw [if_pos h] at hd
      obtain ⟨p, _, rfl⟩ := List.mem_map.mp hd
      exact ⟨rfl, rfl⟩
    · rw [if_neg h] at hd
      exact absurd hd (List.not_mem_nil d)
  · intro st ast sp d hsp hd
    unfold hostRequestVariantDiags hostRequestVariant at hd
    rw [requestLoopVariant_eq st.loadedPlugins ast sp hsp, diagnosticsOf_map] at hd
    obtain ⟨p, _, rfl⟩ := List.mem_map.mp hd
    exact ⟨rfl, rfl⟩

/-- C6, witness for `c6_span_provenance` at plugin "A" and the `Program`
root with span `[0, 50]`. -/
theorem c6_witness :
    fixedDiagnostic "A" ∈ hostRequestDiags stA astProgram ∧
    ((fixedDiagnostic "A").start = 100 ∧ (fixedDiagnostic "A").«end» = 200) :=
  ⟨by decide, c6_span_provenance.1 stA astProgram (fixedDiagnostic "A") (by decide)⟩

/-- C7: the request handler is deterministic — it is a pure function of the
loaded-plugin state and the AST (its only other actions are log prints), so
two invocations on equal inputs yield the same event trace and the same
diagnostic sequence, element for element. -/
theorem c7_deterministic (st st' : HostState) (ast ast' : AstNode)
    (h1 : st = st') (h2 : ast = ast') :
    hostRequest st ast = hostRequest st' ast' ∧
    hostRequestDiags st ast = hostRequestDiags st' ast' := by
  subst h1
  subst h2
  exact ⟨rfl, rfl⟩

/-- C7, witness for `c7_deterministic` at the two-plugin state and the
`Program` root. -/
theorem c7_witness :
    stAB = stAB ∧ astProgram = astProgram ∧
    (hostRequest stAB astProgram = hostRequest stAB astProgram ∧
      hostRequestDiags stAB astProgram = hostRequestDiags stAB astProgram) :=
  ⟨rfl, rfl, c7_deterministic stAB stAB astProgram astProgram rfl rfl⟩

/-- C8: with zero plugins loaded, a request performs no action at all and
returns the empty diagnostic sequence, for every AST and every context —
and since the trace is empty, no error of any kind is reported either. -/
theorem c8_no_plugins (ctx : SharedContext) (ast : AstNode) :
    hostRequest { loadedPlugins := [], context := ctx } ast = [] ∧
    hostRequestDiags { loadedPlugins := [], context := ctx } ast = [] :=
  ⟨rfl, rfl⟩

/-- C9: per request, the host emits exactly one diagnostic per loaded
plugin — the fixed message and range `[100, 200]`, attributed to the
plugin's name — when the root's `span` field is present; with no root span
it emits nothing; the trace holds nothing but `addDiagnostic` calls; and the
output depends only on the loaded plugins' names, so the plugins' visitor
and `onEnd` callbacks never influence it. -/
theorem c9_fixed_output (st : HostState) (ast : AstNode) :
    (ast.span.isSome = true →
      hostRequestDiags st ast = st.loadedPlugins.map fun p => fixedDiagnostic p.name) ∧
    (ast.span = none → hostRequestDiags st ast = []) ∧
    (∀ e ∈ hostRequest st ast, ∃ d, e = HostEvent.addDiagnostic d) ∧
    (∀ st' : HostState,
      st.loadedPlugins.map Plugin.name = st'.loadedPlugins.map Plugin.name →
      hostRequest st ast = hostRequest st' ast) := by
  refine ⟨fun h => ?_, fun h => ?_, requestLoop_only_diagnostics st.loadedPlugins ast, ?_⟩
  · rw [hostRequestDiags_eq, if_pos h]
  · rw [hostRequestDiags_eq, if_neg (by simp [h])]
  · intro st' hn
    unfold hostRequest
    exact requestLoop_names st.loadedPlugins st'.loadedPlugins ast hn

/-- C9, witness for `c9_fixed_output` at plugins "A", "B", once with the
spanned root and once with the span-less root. -/
theorem c9_witness :
    astProgram.span.isSome = true ∧
    hostRequestDiags stAB astProgram = [fixedDiagnostic "A", fixedDiagnostic "B"] ∧
    hostRequestDiags stAB astNoSpan = [] :=
  ⟨rfl, (c9_fixed_output stAB astProgram).1 rfl, (c9_fixed_output stAB astNoSpan).2.1 rfl⟩

/-- C10: `hostInit` only appends to the module-level `loadedPlugins` array —
the previous entries survive, in order, in front of the newly instantiated
plugins — so every later request processes the earlier-registered plugins
first, exactly as before, followed by the newly loaded ones. -/
theorem c10_append_only (st : HostState) (fs : List Factory) :
    (hostInit st fs).1.loadedPlugins = st.loadedPlugins ++ newlyLoaded st.context fs ∧
    ∀ ast : AstNode,
      hostRequest (hostInit st fs).1 ast =
        hostRequest st ast ++ requestLoop (newlyLoaded st.context fs) ast := by
  have hfst := hostInit_fst fs st
  constructor
  · rw [hfst]
  · intro ast
    unfold hostRequest
    rw [hfst]
    exact requestLoop_append st.loadedPlugins (newlyLoaded st.context fs) ast

end DenoLint
